import Mathlib

/-!
Verification development for the multi-tenant Confluence MCP server
(`primrose-mcp-confluence`): a shallow embedding in Lean 4 of the
credential resolver (`src/types/env.ts`), the HTTP client and its
status-code classifier (`src/client.ts`), the tool-level payload and
query builders (`src/tools/*.ts`), and the markdown response formatter
(`src/utils/formatters.ts`), together with theorems checking the
natural-language specification against this embedding.

JavaScript conventions used throughout the embedding:
an absent (`null`/`undefined`) string is `Option.none`; JavaScript
string truthiness (`if (s)`, `s || d`) treats the empty string as
false; JavaScript numbers produced by `parseInt` are modelled as
`Option Int`, with `none` standing for `NaN`.
-/

namespace Confluence

/-! ## JavaScript string and number primitives -/

/-- Truthiness of a JavaScript string: the empty string is falsy. -/
def jsTruthyStr (s : String) : Bool :=
  !s.isEmpty

/-- Truthiness of a JavaScript string-or-null/undefined value. -/
def jsTruthyOpt (o : Option String) : Bool :=
  match o with
  | some s => jsTruthyStr s
  | none => false

/-- JavaScript `x || d` for a string-or-null `x` and string default `d`. -/
def jsOrElse (o : Option String) (d : String) : String :=
  match o with
  | some s => if s.isEmpty then d else s
  | none => d

/-- JavaScript `x || undefined` for a string-or-null `x`: empty strings
and `null` both become `undefined`. -/
def jsOrUndefined (o : Option String) : Option String :=
  match o with
  | some s => if s.isEmpty then none else some s
  | none => none

/-- Numeric value of a digit-character list, most significant first. -/
def digitsValue (cs : List Char) : Nat :=
  cs.foldl (fun a c => a * 10 + (c.toNat - 48)) 0

/-- Parse the maximal leading run of decimal digits; `none` when there is
no leading digit (JavaScript `parseInt` yields `NaN` there). -/
def jsParseIntDigits (cs : List Char) : Option Nat :=
  let ds := cs.takeWhile Char.isDigit
  if ds.isEmpty then none else some (digitsValue ds)

/-- Sign handling of JavaScript `parseInt` after whitespace stripping. -/
def jsParseIntSigned : List Char → Option Int
  | '-' :: rest => (jsParseIntDigits rest).map (fun n => -(n : Int))
  | '+' :: rest => (jsParseIntDigits rest).map (fun n => (n : Int))
  | rest => (jsParseIntDigits rest).map (fun n => (n : Int))

/-- JavaScript `parseInt(s, 10)`: skip leading whitespace, optional sign,
then the maximal digit run; `none` models `NaN`. -/
def jsParseInt (s : String) : Option Int :=
  jsParseIntSigned (s.data.dropWhile fun c => c == ' ' || c == '\t' || c == '\n' || c == '\r')

/-! ## Credential resolver (`src/types/env.ts`) -/

/-- Tenant credentials parsed from request headers (`TenantCredentials`). -/
structure TenantCredentials where
  domain : String
  email : String
  apiToken : String
  cloudId : Option String
deriving DecidableEq

/-- The four tenant-identity request headers, each possibly absent:
`X-Confluence-Domain`, `X-Confluence-Email`, `X-Confluence-API-Token`,
`X-Confluence-Cloud-ID`. -/
structure TenantHeaders where
  xConfluenceDomain : Option String
  xConfluenceEmail : Option String
  xConfluenceApiToken : Option String
  xConfluenceCloudId : Option String
deriving DecidableEq

/-- Embedding of `parseTenantCredentials`: `headers.get(...) || ''` for
domain, email and apiToken, and `headers.get(...) || undefined` for the
cloud id. -/
def parseTenantCredentials (h : TenantHeaders) : TenantCredentials :=
  { domain := jsOrElse h.xConfluenceDomain ""
    email := jsOrElse h.xConfluenceEmail ""
    apiToken := jsOrElse h.xConfluenceApiToken ""
    cloudId := jsOrUndefined h.xConfluenceCloudId }

/-- Error message thrown when both domain and cloud id are missing. -/
def missingDomainMsg : String :=
  "Missing credentials. Provide X-Confluence-Domain or X-Confluence-Cloud-ID header."

/-- Error message thrown when the email is missing. -/
def missingEmailMsg : String :=
  "Missing credentials. Provide X-Confluence-Email header."

/-- Error message thrown when the API token is missing. -/
def missingApiTokenMsg : String :=
  "Missing credentials. Provide X-Confluence-API-Token header."

/-- Embedding of `validateCredentials`: throwing is modelled as
`Except.error` carrying the thrown `Error`'s message. -/
def validateCredentials (c : TenantCredentials) : Except String Unit :=
  if !jsTruthyStr c.domain && !jsTruthyOpt c.cloudId then
    .error missingDomainMsg
  else if !jsTruthyStr c.email then
    .error missingEmailMsg
  else if !jsTruthyStr c.apiToken then
    .error missingApiTokenMsg
  else
    .ok ()

/-- A header value that is absent, or present but empty. -/
def absentOrEmpty (o : Option String) : Bool :=
  match o with
  | some s => s.isEmpty
  | none => true

/-! ## Error taxonomy (`src/utils/errors.ts`)

Modelled from the spec: the class definitions of `utils/errors.ts` are not
among the provided sources, so the taxonomy is the spec's closed
`ErrorRecord` set (Authentication, Forbidden, NotFound, RateLimit,
Generic); the constructor arguments are exactly those appearing at the
`throw new ...` sites of `client.ts`, which are among the sources. -/

/-- Typed error taxonomy raised by the request engine. `retryAfterSeconds`
is a JavaScript number, so `Option Int` with `none` for `NaN`. -/
inductive ErrorRecord where
  | authenticationError (message : String)
  | forbiddenError (message : String)
  | notFoundError (resource : String) (path : String)
  | rateLimitError (message : String) (retryAfterSeconds : Option Int)
  | confluenceApiError (message : String) (status : Nat)
deriving DecidableEq

/-- Modelled from the spec: the `message` property of each error class
(the class bodies live in `utils/errors.ts`, absent from the sources);
NotFound carries the resource name and path per the spec. -/
def errorRecordMessage : ErrorRecord → String
  | .authenticationError m => m
  | .forbiddenError m => m
  | .notFoundError resource path => resource ++ " not found: " ++ path
  | .rateLimitError m _ => m
  | .confluenceApiError m _ => m

/-! ## HTTP request engine (`src/client.ts`) -/

/-- Outcome of `JSON.parse` on a non-2xx response body, keeping only the
fields the error path of `request` reads. -/
inductive ErrorBodyJson where
  | unparsable
  | parsed (message : Option String) (errorField : Option String)
      (errorsFirstMessage : Option String)
deriving DecidableEq

/-- The parts of a `fetch` response consulted by `request`. -/
structure HttpResponse where
  status : Nat
  retryAfterHeader : Option String
  errorBody : ErrorBodyJson
deriving DecidableEq

/-- Message extraction for the generic error branch:
`errorJson.message || errorJson.error || errorJson.errors?.[0]?.message || default`. -/
def extractApiErrorMessage (status : Nat) (b : ErrorBodyJson) : String :=
  let fallback := "API error: " ++ toString status
  match b with
  | .unparsable => fallback
  | .parsed m e f => jsOrElse m (jsOrElse e (jsOrElse f fallback))

/-- The retry-after seconds carried by a 429:
`retryAfter ? parseInt(retryAfter, 10) : 60` on the raw header value. -/
def retryAfterValue (h : Option String) : Option Int :=
  match h with
  | some s => if s.isEmpty then some 60 else jsParseInt s
  | none => some 60

/-- Status-code classification of `request` (lines 244-276 of the client):
429, then 401, then 403, then 404, then any other non-2xx. -/
def requestClassify (endpoint : String) (r : HttpResponse) : Except ErrorRecord Unit :=
  if r.status = 429 then
    .error (.rateLimitError "Rate limit exceeded" (retryAfterValue r.retryAfterHeader))
  else if r.status = 401 then
    .error (.authenticationError "Authentication failed. Check your credentials.")
  else if r.status = 403 then
    .error (.forbiddenError "Access denied. Check your permissions.")
  else if r.status = 404 then
    .error (.notFoundError "Resource" endpoint)
  else if ¬ (200 ≤ r.status ∧ r.status < 300) then
    .error (.confluenceApiError (extractApiErrorMessage r.status r.errorBody) r.status)
  else
    .ok ()

/-- Base URL bound at client construction:
`https://{credentials.domain}.atlassian.net/wiki/api/v2`. -/
def baseUrl (c : TenantCredentials) : String :=
  "https://" ++ c.domain ++ ".atlassian.net/wiki/api/v2"

/-- Legacy (v1, CQL) base URL bound at client construction:
`https://{credentials.domain}.atlassian.net/wiki/rest/api`. -/
def searchBaseUrl (c : TenantCredentials) : String :=
  "https://" ++ c.domain ++ ".atlassian.net/wiki/rest/api"

/-- URL built by `request`: `{useSearchApi ? searchBaseUrl : baseUrl}{endpoint}`. -/
def requestUrl (c : TenantCredentials) (endpoint : String) (useSearchApi : Bool) : String :=
  (if useSearchApi then searchBaseUrl c else baseUrl c) ++ endpoint

/-- A JavaScript thrown value as seen by a `catch` block: either an
`Error` instance with a message, or any other value. -/
inductive JsThrown where
  | errorInstance (message : String)
  | nonErrorValue
deriving DecidableEq

/-- Result record of `testConnection`. -/
structure ConnectionResult where
  connected : Bool
  message : String
deriving DecidableEq

/-- Embedding of `testConnection` over the outcome of the awaited inner
`request('/spaces?limit=1')`: success, a thrown `Error`, or a thrown
non-`Error` value. -/
def testConnection (outcome : Except JsThrown Unit) : ConnectionResult :=
  match outcome with
  | .ok _ => ⟨true, "Successfully connected to Confluence"⟩
  | .error (.errorInstance m) => ⟨false, m⟩
  | .error .nonErrorValue => ⟨false, "Connection failed"⟩

/-! ## Domain operation surface (`src/client.ts` methods)

Each client method is embedded as the outbound call descriptor it hands
to `request`: endpoint, HTTP verb, JSON body (when any) and whether the
legacy search API base is selected. -/

/-- Descriptor of one outbound call made through `request`. -/
structure ClientCall (β : Type) where
  endpoint : String
  method : String
  body : Option β
  useSearchApi : Bool
deriving DecidableEq

/-- Body shape `{ representation, value }` used by write operations. -/
structure UpdateBody where
  representation : String
  value : String
deriving DecidableEq

/-- Version payload `{ number, message? }` of update inputs. -/
structure VersionInput where
  number : Int
  message : Option String
deriving DecidableEq

/-- Input of `updatePage` (`PageUpdateInput`). -/
structure PageUpdateInput where
  id : String
  status : Option String
  title : String
  body : Option UpdateBody
  version : VersionInput
deriving DecidableEq

/-- Input of `updateBlogPost` (`BlogPostUpdateInput`). -/
structure BlogPostUpdateInput where
  id : String
  status : Option String
  title : String
  body : Option UpdateBody
  version : VersionInput
deriving DecidableEq

/-- Input of `updateComment` (`CommentUpdateInput`). -/
structure CommentUpdateInput where
  body : UpdateBody
  version : VersionInput
deriving DecidableEq

/-- Input of `updateCustomContent` (`CustomContentUpdateInput`). -/
structure CustomContentUpdateInput where
  id : String
  status : Option String
  title : Option String
  body : Option UpdateBody
  version : VersionInput
deriving DecidableEq

/-- Input of `updatePageProperty` (`ContentPropertyUpdateInput`); the
property value is caller-opaque JSON, kept as a type parameter. -/
structure ContentPropertyUpdateInput (α : Type) where
  key : String
  value : α
  version : VersionInput

/-- Input of `updateSpaceProperty` (`SpacePropertyUpdateInput`). -/
structure SpacePropertyUpdateInput (α : Type) where
  value : α
  version : VersionInput

/-- Client method `updatePage`: PUT `/pages/{id}`. -/
def updatePage (pageId : String) (input : PageUpdateInput) : ClientCall PageUpdateInput :=
  ⟨"/pages/" ++ pageId, "PUT", some input, false⟩

/-- Client method `updateBlogPost`: PUT `/blogposts/{id}`. -/
def updateBlogPost (blogPostId : String) (input : BlogPostUpdateInput) : ClientCall BlogPostUpdateInput :=
  ⟨"/blogposts/" ++ blogPostId, "PUT", some input, false⟩

/-- Client method `updateComment`: PUT `/comments/{id}`. -/
def updateComment (commentId : String) (input : CommentUpdateInput) : ClientCall CommentUpdateInput :=
  ⟨"/comments/" ++ commentId, "PUT", some input, false⟩

/-- Client method `updateCustomContent`: PUT `/custom-content/{id}`. -/
def updateCustomContent (customContentId : String) (input : CustomContentUpdateInput) : ClientCall CustomContentUpdateInput :=
  ⟨"/custom-content/" ++ customContentId, "PUT", some input, false⟩

/-- Client method `updatePageProperty`: PUT `/pages/{id}/properties/{key}`. -/
def updatePageProperty {α : Type} (pageId propertyKey : String)
    (input : ContentPropertyUpdateInput α) : ClientCall (ContentPropertyUpdateInput α) :=
  ⟨"/pages/" ++ pageId ++ "/properties/" ++ propertyKey, "PUT", some input, false⟩

/-- Client method `updateSpaceProperty`: PUT `/spaces/{id}/properties/{key}`. -/
def updateSpaceProperty {α : Type} (spaceId propertyKey : String)
    (input : SpacePropertyUpdateInput α) : ClientCall (SpacePropertyUpdateInput α) :=
  ⟨"/spaces/" ++ spaceId ++ "/properties/" ++ propertyKey, "PUT", some input, false⟩

/-- Client method `deletePage`: DELETE `/pages/{id}` with the
`?purge=true` query toggle. -/
def deletePage (pageId : String) (purge : Bool) : ClientCall Unit :=
  ⟨"/pages/" ++ pageId ++ (if purge then "?purge=true" else ""), "DELETE", none, false⟩

/-! ## URLSearchParams serialization (WHATWG form-urlencoded) -/

/-- UTF-8 byte sequence of a character, as `Nat` byte values. -/
def utf8BytesOfChar (c : Char) : List Nat :=
  let n := c.toNat
  if n < 0x80 then [n]
  else if n < 0x800 then [0xC0 + n / 0x40, 0x80 + n % 0x40]
  else if n < 0x10000 then
    [0xE0 + n / 0x1000, 0x80 + (n / 0x40) % 0x40, 0x80 + n % 0x40]
  else
    [0xF0 + n / 0x40000, 0x80 + (n / 0x1000) % 0x40, 0x80 + (n / 0x40) % 0x40, 0x80 + n % 0x40]

/-- Uppercase hexadecimal digit for a value below 16. -/
def hexDigit (n : Nat) : Char :=
  if n < 10 then Char.ofNat (48 + n) else Char.ofNat (55 + n)

/-- Percent-encoding of one byte. -/
def percentEncodeByte (n : Nat) : List Char :=
  ['%', hexDigit (n / 16), hexDigit (n % 16)]

/-- Characters serialized verbatim by `URLSearchParams`. -/
def formUrlEncodedSafe (c : Char) : Bool :=
  c.isAlphanum || c == '*' || c == '-' || c == '.' || c == '_'

/-- Form-urlencoded encoding of one character: space becomes `+`, safe
characters stay, everything else is percent-encoded bytewise. -/
def formUrlEncodeChar (c : Char) : List Char :=
  if c = ' ' then ['+']
  else if formUrlEncodedSafe c then [c]
  else (utf8BytesOfChar c).flatMap percentEncodeByte

/-- Form-urlencoded encoding of a string (`URLSearchParams` component). -/
def formUrlEncode (s : String) : String :=
  String.mk (s.data.flatMap formUrlEncodeChar)

/-- Serialization of a `URLSearchParams` pair list (`toString`). -/
def serializeSearchParams (ps : List (String × String)) : String :=
  String.intercalate "&" (ps.map fun p => formUrlEncode p.1 ++ "=" ++ formUrlEncode p.2)

/-- Parameter pairs set by the client's `search` method: `cql` always,
then `limit` when truthy (non-zero), `cursor` when truthy (non-empty),
and `excerpt` when defined (`!== undefined`). -/
def searchParamsList (cql : String) (limit : Option Int) (cursor : Option String)
    (excerpt : Option Bool) : List (String × String) :=
  let ps := [("cql", cql)]
  let ps := match limit with
    | some n => if n = 0 then ps else ps ++ [("limit", toString n)]
    | none => ps
  let ps := match cursor with
    | some s => if s.isEmpty then ps else ps ++ [("cursor", s)]
    | none => ps
  match excerpt with
  | some b => ps ++ [("excerpt", if b then "true" else "false")]
  | none => ps

/-- Client method `search`: GET `/search?{params}` against the legacy
(v1, CQL) API base — the only method passing `useSearchApi = true`. -/
def search (cql : String) (limit : Option Int) (cursor : Option String)
    (excerpt : Option Bool) : ClientCall Unit :=
  ⟨"/search?" ++ serializeSearchParams (searchParamsList cql limit cursor excerpt),
    "GET", none, true⟩

/-! ## Date arithmetic for the recent-content search (`src/tools/search.ts`)

The tool runs `new Date(); date.setDate(date.getDate() - days)` and takes
the calendar-date half of `toISOString()`. In a UTC runtime this is
exactly a shift of the current UTC calendar date by `days` days, so the
current date is embedded as its epoch-day number and the shift is
epoch-day subtraction, followed by civil-date conversion. -/

/-- Civil (proleptic Gregorian) date of an epoch-day number, as
`(year, month, day)`. -/
def civilFromDays (z : Nat) : Nat × Nat × Nat :=
  let z := z + 719468
  let era := z / 146097
  let doe := z % 146097
  let yoe := (doe - doe / 1460 + doe / 36524 - doe / 146096) / 365
  let y := yoe + era * 400
  let doy := doe - (365 * yoe + yoe / 4 - yoe / 100)
  let mp := (5 * doy + 2) / 153
  let d := doy - (153 * mp + 2) / 5 + 1
  let m := if mp < 10 then mp + 3 else mp - 9
  (if m ≤ 2 then y + 1 else y, m, d)

/-- Epoch-day number of a civil (proleptic Gregorian) date. -/
def daysFromCivil (y m d : Nat) : Nat :=
  let y := if m ≤ 2 then y - 1 else y
  let era := y / 400
  let yoe := y - era * 400
  let mp := if m > 2 then m - 3 else m + 9
  let doy := (153 * mp + 2) / 5 + d - 1
  let doe := yoe * 365 + yoe / 4 - yoe / 100 + doy
  era * 146097 + doe - 719468

/-- Two-digit zero-padded decimal rendering. -/
def pad2 (n : Nat) : String :=
  if n < 10 then "0" ++ toString n else toString n

/-- Four-digit zero-padded decimal rendering. -/
def pad4 (n : Nat) : String :=
  if n < 10 then "000" ++ toString n
  else if n < 100 then "00" ++ toString n
  else if n < 1000 then "0" ++ toString n
  else toString n

/-- Calendar-date half of `toISOString()`: `YYYY-MM-DD`. -/
def formatIsoDate (ymd : Nat × Nat × Nat) : String :=
  pad4 ymd.1 ++ "-" ++ pad2 ymd.2.1 ++ "-" ++ pad2 ymd.2.2

/-! ## Search tools (`src/tools/search.ts`) -/

/-- One replacement step of `label.replace(/"/g, '\\"')`. -/
def escapeQuotesChar (c : Char) : List Char :=
  if c = '"' then ['\\', '"'] else [c]

/-- Embedding of `label.replace(/"/g, '\\"')`: every quotation mark is
replaced by a backslash-quote pair. -/
def escapeQuotes (s : String) : String :=
  String.mk (s.data.flatMap escapeQuotesChar)

/-- Scanner deciding that every `"` in a character list is immediately
preceded by a backslash; `prev` is the previously scanned character. -/
def noBareQuote (prev : Option Char) : List Char → Bool
  | [] => true
  | c :: rest => (!(c == '"') || prev == some '\\') && noBareQuote (some c) rest

/-- Every quotation mark occurring in `s` is escaped by a backslash. -/
def quotesEscaped (s : String) : Bool :=
  noBareQuote none s.data

/-- CQL expression built by the `confluence_search_by_label` tool:
quoted escaped label, then optional unquoted type filter, then optional
quoted space-key filter (both appended only when truthy). -/
def confluence_search_by_label_cql (label : String) (contentType : Option String)
    (spaceKey : Option String) : String :=
  let cql := "label=\"" ++ escapeQuotes label ++ "\""
  let cql := match contentType with
    | some ct => if ct.isEmpty then cql else cql ++ (" AND type=" ++ ct)
    | none => cql
  match spaceKey with
  | some sk => if sk.isEmpty then cql else cql ++ (" AND space.key=\"" ++ sk ++ "\"")
  | none => cql

/-- The `confluence_search_by_label` tool handler: builds the CQL and
calls `client.search(cql, { excerpt: true, limit })`. -/
def confluence_search_by_label (label : String) (contentType : Option String)
    (spaceKey : Option String) (limit : Int) : ClientCall Unit :=
  search (confluence_search_by_label_cql label contentType spaceKey) (some limit) none (some true)

/-- CQL expression built by the `confluence_search_recent` tool from the
current UTC date (as an epoch-day number) and the look-back day count. -/
def confluence_search_recent_cql (todayEpochDay : Nat) (days : Nat)
    (contentType : Option String) (spaceKey : Option String) : String :=
  let dateStr := formatIsoDate (civilFromDays (todayEpochDay - days))
  let cql := "lastModified >= \"" ++ dateStr ++ "\""
  let cql := match contentType with
    | some ct => if ct.isEmpty then cql ++ " AND (type=page OR type=blogpost)"
        else cql ++ (" AND type=" ++ ct)
    | none => cql ++ " AND (type=page OR type=blogpost)"
  let cql := match spaceKey with
    | some sk => if sk.isEmpty then cql else cql ++ (" AND space.key=\"" ++ sk ++ "\"")
    | none => cql
  cql ++ " ORDER BY lastModified DESC"

/-! ## Update and delete tool handlers (`src/tools/*.ts`)

Each handler is embedded as the payload-building composition it performs
before delegating to the client method. -/

/-- Handler `confluence_update_page`: transmits `version + 1`. -/
def confluence_update_page (pageId title body bodyRepresentation : String)
    (version : Int) (versionMessage : Option String) (status : Option String) :
    ClientCall PageUpdateInput :=
  updatePage pageId
    { id := pageId
      status := status
      title := title
      body := some ⟨bodyRepresentation, body⟩
      version := ⟨version + 1, versionMessage⟩ }

/-- Handler `confluence_update_blogpost`: transmits `version + 1`. -/
def confluence_update_blogpost (blogPostId title body bodyRepresentation : String)
    (version : Int) (versionMessage : Option String) (status : Option String) :
    ClientCall BlogPostUpdateInput :=
  updateBlogPost blogPostId
    { id := blogPostId
      status := status
      title := title
      body := some ⟨bodyRepresentation, body⟩
      version := ⟨version + 1, versionMessage⟩ }

/-- Handler `confluence_update_comment`: transmits `version + 1`. -/
def confluence_update_comment (commentId body bodyRepresentation : String)
    (version : Int) (versionMessage : Option String) : ClientCall CommentUpdateInput :=
  updateComment commentId
    { body := ⟨bodyRepresentation, body⟩
      version := ⟨version + 1, versionMessage⟩ }

/-- Handler `confluence_update_custom_content`: transmits `version + 1`;
the body is sent only when both body and representation are truthy. -/
def confluence_update_custom_content (customContentId : String)
    (title : Option String) (body : Option String) (bodyRepresentation : Option String)
    (version : Int) (status : Option String) : ClientCall CustomContentUpdateInput :=
  updateCustomContent customContentId
    { id := customContentId
      status := status
      title := title
      body := match body, bodyRepresentation with
        | some b, some r => if !b.isEmpty && !r.isEmpty then some ⟨r, b⟩ else none
        | _, _ => none
      version := ⟨version + 1, none⟩ }

/-- Handler `confluence_update_page_property`: transmits `version`
unchanged (`version: { number: version }`). -/
def confluence_update_page_property {α : Type} (pageId propertyKey : String)
    (value : α) (version : Int) : ClientCall (ContentPropertyUpdateInput α) :=
  updatePageProperty pageId propertyKey ⟨propertyKey, value, ⟨version, none⟩⟩

/-- Handler `confluence_update_space_property`: transmits `version`
unchanged (`version: { number: version }`). -/
def confluence_update_space_property {α : Type} (spaceId propertyKey : String)
    (value : α) (version : Int) : ClientCall (SpacePropertyUpdateInput α) :=
  updateSpaceProperty spaceId propertyKey ⟨value, ⟨version, none⟩⟩

/-- Confirmation message of the `confluence_delete_page` tool handler. -/
def confluence_delete_page_message (pageId : String) (purge : Bool) : String :=
  if purge then "Page " ++ pageId ++ " permanently deleted"
  else "Page " ++ pageId ++ " moved to trash"

/-! ## Response formatter (`src/utils/formatters.ts`) -/

/-- JavaScript `str.charAt(0).toUpperCase() + str.slice(1)`. -/
def capitalize (s : String) : String :=
  match s.data with
  | [] => ""
  | c :: cs => String.mk (c.toUpper :: cs)

/-- Lines assembled by `formatPaginatedAsMarkdown` before joining:
heading, blank, count, "more available" flag iff `_links.next` is truthy,
blank, then either the no-items placeholder or the entity table.
`renderTable` stands for the entity-family `switch` (lines 273-304),
which only ever contributes the table block. -/
def formatPaginatedLines {α : Type} (renderTable : List α → String)
    (entityType : String) (results : List α) (linksNext : Option String) : List String :=
  ["## " ++ capitalize entityType, "", "**Showing:** " ++ toString results.length]
    ++ (if jsTruthyOpt linksNext then ["**More available:** Yes"] else [])
    ++ [""]
    ++ (if results.isEmpty then ["_No items found._"] else [renderTable results])

/-- Markdown rendering of a paginated response: the joined lines. -/
def formatPaginatedAsMarkdown {α : Type} (renderTable : List α → String)
    (entityType : String) (results : List α) (linksNext : Option String) : String :=
  String.intercalate "\n" (formatPaginatedLines renderTable entityType results linksNext)

/-- Decidable equality for `Except` outcomes, needed to evaluate the
classifier on concrete responses. -/
instance {ε α : Type} [DecidableEq ε] [DecidableEq α] : DecidableEq (Except ε α) := fun a b =>
  match a, b with
  | .error e1, .error e2 => decidable_of_iff (e1 = e2) (by simp)
  | .ok x, .ok y => decidable_of_iff (x = y) (by simp)
  | .error _, .ok _ => .isFalse (fun he => Except.noConfusion he)
  | .ok _, .error _ => .isFalse (fun he => Except.noConfusion he)

/-! ## General helper lemmas -/

/-- Appending strings concatenates their character data. -/
theorem string_data_append (s t : String) : (s ++ t).data = s.data ++ t.data := by
  cases s; cases t; rfl

/-- The empty string is right-neutral for string append. -/
theorem string_append_nil (s : String) : s ++ "" = s :=
  String.ext (by simp [string_data_append])

/-- String append is associative. -/
theorem string_append_assoc (a b c : String) : a ++ b ++ c = a ++ (b ++ c) :=
  String.ext (by simp [string_data_append])

/-- A string starting with `pre` differs from any string `t` that does not
start with `pre`. -/
theorem append_ne_of_not_prefixed (pre x t : String) (h : ¬ pre.data <+: t.data) :
    pre ++ x ≠ t := by
  intro he
  apply h
  rw [← he, string_data_append]
  exact List.prefix_append _ _

/-- Symmetric orientation of `append_ne_of_not_prefixed`. -/
theorem ne_append_of_not_prefixed (pre x t : String) (h : ¬ pre.data <+: t.data) :
    t ≠ pre ++ x :=
  Ne.symm (append_ne_of_not_prefixed pre x t h)

/-- The escape step never produces a bare quotation mark, whatever the
previously scanned character was. -/
theorem noBareQuote_escapeQuotes (cs : List Char) :
    ∀ prev, noBareQuote prev (cs.flatMap escapeQuotesChar) = true := by
  induction cs with
  | nil => intro prev; rfl
  | cons c cs ih =>
    intro prev
    rw [List.flatMap_cons]
    by_cases hc : c = '"'
    · subst hc
      rw [show escapeQuotesChar '"' = ['\\', '"'] from rfl, List.cons_append,
        List.cons_append, List.nil_append]
      simp only [noBareQuote]
      rw [ih, show ('\\' == '"') = false from rfl, show (('"' : Char) == '"') = true from rfl,
        show (some '\\' == some '\\') = true from rfl]
      simp
    · rw [show escapeQuotesChar c = [c] from if_neg hc, List.cons_append, List.nil_append]
      simp only [noBareQuote]
      rw [ih]
      have hbeq : (c == '"') = false := by simp [hc]
      rw [hbeq]
      simp

/-- Every quotation mark in the output of `escapeQuotes` is immediately
preceded by a backslash. -/
theorem quotesEscaped_escapeQuotes (s : String) : quotesEscaped (escapeQuotes s) = true :=
  noBareQuote_escapeQuotes s.data none

/-- Truthiness of a parsed required-header field matches non-absence of
the raw header. -/
theorem jsTruthyStr_jsOrElse_empty (o : Option String) :
    jsTruthyStr (jsOrElse o "") = !(absentOrEmpty o) := by
  cases o with
  | none => rfl
  | some s =>
    by_cases h : s.isEmpty
    · simp only [jsOrElse, jsTruthyStr, absentOrEmpty, h, if_pos]
      rfl
    · simp [jsOrElse, jsTruthyStr, absentOrEmpty, h]

/-- Truthiness of the parsed cloud-id field matches non-absence of the raw
header. -/
theorem jsTruthyOpt_jsOrUndefined (o : Option String) :
    jsTruthyOpt (jsOrUndefined o) = !(absentOrEmpty o) := by
  cases o with
  | none => rfl
  | some s => by_cases h : s.isEmpty <;> simp [jsOrUndefined, jsTruthyOpt, jsTruthyStr, absentOrEmpty, h]

/-! ## Claim theorems -/

/-- C1: on caller-supplied current version 5 the update handlers for
pages, blog posts, comments and custom content all transmit version
number 6 = 5 + 1, but the page-property and space-property update
handlers transmit 5 unchanged, so the claim that every update operation
transmits N+1 fails on the two property operations (the code contradicts
its own optimistic-locking convention, which the four content updates and
the identically documented `version` parameters establish). -/
theorem c1_update_version_transmission :
  ((confluence_update_page "p1" "T" "B" "storage" 5 none none).body.map
      fun i => i.version.number) = some 6
  ∧ ((confluence_update_blogpost "b1" "T" "B" "storage" 5 none none).body.map
      fun i => i.version.number) = some 6
  ∧ ((confluence_update_comment "c9" "B" "storage" 5 none).body.map
      fun i => i.version.number) = some 6
  ∧ ((confluence_update_custom_content "cc1" none none none 5 none).body.map
      fun i => i.version.number) = some 6
  ∧ ((confluence_update_page_property "p1" "k" "v" 5).body.map
      fun i => i.version.number) = some 5
  ∧ ((confluence_update_space_property "s1" "k" "v" 5).body.map
      fun i => i.version.number) = some 5
  ∧ (5 : Int) + 1 ≠ 5 := by
  refine ⟨by decide, by decide, by decide, by decide, by decide, by decide, by decide⟩

/-- C3: the client constructor interpolates only `credentials.domain`
into both base URLs; for a credential set supplying only the cloud id
(which `validateCredentials` accepts as sufficient), both bases are built
from the empty domain and never mention the cloud id, contradicting the
claim that the base is built from the instance identifier when it is
supplied instead of a domain. -/
theorem c3_cloud_id_unused_in_base_urls :
  baseUrl ⟨"", "admin@example.com", "token123", some "my-cloud-id"⟩
      = "https://.atlassian.net/wiki/api/v2"
  ∧ searchBaseUrl ⟨"", "admin@example.com", "token123", some "my-cloud-id"⟩
      = "https://.atlassian.net/wiki/rest/api"
  ∧ ¬ ("my-cloud-id".data <:+:
      (baseUrl ⟨"", "admin@example.com", "token123", some "my-cloud-id"⟩).data)
  ∧ ¬ ("my-cloud-id".data <:+:
      (searchBaseUrl ⟨"", "admin@example.com", "token123", some "my-cloud-id"⟩).data)
  ∧ validateCredentials ⟨"", "admin@example.com", "token123", some "my-cloud-id"⟩ = .ok () := by
  refine ⟨by decide, by decide, by decide, by decide, by decide⟩

/-- C7: deleting a page with purge=false issues DELETE on
`/pages/{id}` with no query appended (at a concrete id, no `purge`
substring at all, and the full URL on the current API base ends at the
id), deleting with purge=true appends `?purge=true`; the handler message
states moved-to-trash respectively permanently-deleted. -/
theorem c7_delete_page_purge_toggle :
  (∀ pageId : String,
      (deletePage pageId false).endpoint = "/pages/" ++ pageId
      ∧ (deletePage pageId true).endpoint = "/pages/" ++ pageId ++ "?purge=true"
      ∧ (deletePage pageId false).method = "DELETE"
      ∧ (deletePage pageId true).method = "DELETE"
      ∧ confluence_delete_page_message pageId false = "Page " ++ pageId ++ " moved to trash"
      ∧ confluence_delete_page_message pageId true = "Page " ++ pageId ++ " permanently deleted")
  ∧ ¬ ("purge".data <:+: (deletePage "12345" false).endpoint.data)
  ∧ (∀ c : TenantCredentials, ∀ pageId,
      requestUrl c (deletePage pageId false).endpoint (deletePage pageId false).useSearchApi
        = baseUrl c ++ ("/pages/" ++ pageId)) := by
  refine ⟨fun pageId => ⟨?_, rfl, rfl, rfl, rfl, rfl⟩, by decide, fun c pageId => ?_⟩
  · simp [deletePage, string_append_nil]
  · simp [requestUrl, deletePage, string_append_nil]

/-- C10: `testConnection` is total over the outcome of the inner request,
returning connected=true with the fixed success message on success,
connected=false with the thrown Error's message (in particular with every
taxonomy error's message), and connected=false with "Connection failed"
for a thrown non-Error value. -/
theorem c10_testConnection_never_propagates :
  testConnection (.ok ()) = ⟨true, "Successfully connected to Confluence"⟩
  ∧ (∀ m, testConnection (.error (.errorInstance m)) = ⟨false, m⟩)
  ∧ testConnection (.error .nonErrorValue) = ⟨false, "Connection failed"⟩
  ∧ (∀ e : ErrorRecord,
      testConnection (.error (.errorInstance (errorRecordMessage e)))
        = ⟨false, errorRecordMessage e⟩) :=
  ⟨rfl, fun _ => rfl, rfl, fun _ => rfl⟩

/-- C5: `search_by_label('important', 'page')` builds exactly the CQL
`label="important" AND type=page` (label quoted, type keyword bare); the
resulting call selects the legacy search API base, whose URL is the
legacy base followed by the serialized `/search?` endpoint; in general
the tool embeds the label with every quotation mark backslash-escaped. -/
theorem c5_search_by_label :
  confluence_search_by_label_cql "important" (some "page") none
      = "label=\"important\" AND type=page"
  ∧ (confluence_search_by_label "important" (some "page") none 25).useSearchApi = true
  ∧ (confluence_search_by_label "important" (some "page") none 25).endpoint
      = "/search?cql=label%3D%22important%22+AND+type%3Dpage&limit=25&excerpt=true"
  ∧ (∀ c : TenantCredentials, ∀ e : String, requestUrl c e true = searchBaseUrl c ++ e)
  ∧ (∀ l : String, quotesEscaped (escapeQuotes l) = true)
  ∧ (∀ l : String, confluence_search_by_label_cql l none none
      = "label=\"" ++ escapeQuotes l ++ "\"") := by
  refine ⟨by decide, rfl, by decide, fun c e => rfl, fun l => quotesEscaped_escapeQuotes l,
    fun l => rfl⟩

/-- C6: with the current UTC date fixed to 2024-06-15 (as an epoch-day
number) and days=7, the recent-content tool computes the cutoff
2024-06-08 and builds exactly the claimed query; in general the CQL
starts with the cutoff equal to the current date minus the day count,
formatted as a bare calendar date. -/
theorem c6_search_recent :
  daysFromCivil 2024 6 15 - 7 = daysFromCivil 2024 6 8
  ∧ confluence_search_recent_cql (daysFromCivil 2024 6 15) 7 none none
      = "lastModified >= \"2024-06-08\" AND (type=page OR type=blogpost) ORDER BY lastModified DESC"
  ∧ (∀ today days : Nat,
      confluence_search_recent_cql today days none none
        = "lastModified >= \"" ++ formatIsoDate (civilFromDays (today - days)) ++ "\""
            ++ " AND (type=page OR type=blogpost)" ++ " ORDER BY lastModified DESC") := by
  refine ⟨by decide, by decide, fun today days => rfl⟩

/-- C2 counterexample: a 429 response whose Retry-After header is present
but empty is classified as RateLimit with retryAfterSeconds 60, not with
the parsed header value (which is NaN, since `parseInt("")` has no
digits), so the claim as stated fails at this input. -/
theorem c2_retry_after_counterexample :
  requestClassify "/spaces" ⟨429, some "", .unparsable⟩
      = .error (.rateLimitError "Rate limit exceeded" (some 60))
  ∧ jsParseInt "" = none
  ∧ requestClassify "/spaces" ⟨429, some "", .unparsable⟩
      ≠ .error (.rateLimitError "Rate limit exceeded" (jsParseInt "")) := by
  refine ⟨by decide, by decide, by decide⟩

/-- C2 (amended): first-match status classification of the request
engine: 429 raises RateLimit carrying the parseInt of the Retry-After
header when it is present and non-empty and 60 seconds when it is absent
or empty; then 401 Authentication, 403 Forbidden, 404 NotFound; any
other non-2xx raises the generic error whose message is extracted from
the body's message/error/errors[0].message fields, falling back to
"API error: " followed by the status; a 429 is never the generic error. -/
theorem c2_status_classification (endpoint : String) (r : HttpResponse) :
  (r.status = 429 →
      requestClassify endpoint r
        = .error (.rateLimitError "Rate limit exceeded" (retryAfterValue r.retryAfterHeader)))
  ∧ (∀ s, r.retryAfterHeader = some s → s.isEmpty = false →
      retryAfterValue r.retryAfterHeader = jsParseInt s)
  ∧ (r.retryAfterHeader = none ∨ r.retryAfterHeader = some "" →
      retryAfterValue r.retryAfterHeader = some 60)
  ∧ (r.status = 401 →
      requestClassify endpoint r
        = .error (.authenticationError "Authentication failed. Check your credentials."))
  ∧ (r.status = 403 →
      requestClassify endpoint r
        = .error (.forbiddenError "Access denied. Check your permissions."))
  ∧ (r.status = 404 →
      requestClassify endpoint r = .error (.notFoundError "Resource" endpoint))
  ∧ (r.status ≠ 429 → r.status ≠ 401 → r.status ≠ 403 → r.status ≠ 404 →
      ¬ (200 ≤ r.status ∧ r.status < 300) →
      requestClassify endpoint r
        = .error (.confluenceApiError (extractApiErrorMessage r.status r.errorBody) r.status))
  ∧ (r.status = 429 → ∀ m st, requestClassify endpoint r ≠ .error (.confluenceApiError m st)) := by
  refine ⟨?_, ?_, ?_, ?_, ?_, ?_, ?_, ?_⟩
  · intro h; simp [requestClassify, h]
  · intro s hs hemp; rw [hs]; simp [retryAfterValue, hemp]
  · rintro (h | h) <;> rw [h] <;> rfl
  · intro h; simp [requestClassify, h]
  · intro h; simp [requestClassify, h]
  · intro h; simp [requestClassify, h]
  · intro h1 h2 h3 h4 h5
    rw [requestClassify, if_neg h1, if_neg h2, if_neg h3, if_neg h4, if_pos h5]
  · intro h m st; simp [requestClassify, h]

/-- C2 witness: the classification theorem instantiated at a 429 with
Retry-After 30, a 429 with no Retry-After header, and a 401. -/
theorem c2_status_classification_witness :
  requestClassify "/spaces" ⟨429, some "30", .unparsable⟩
      = .error (.rateLimitError "Rate limit exceeded" (some 30))
  ∧ requestClassify "/spaces" ⟨429, none, .unparsable⟩
      = .error (.rateLimitError "Rate limit exceeded" (some 60))
  ∧ requestClassify "/spaces" ⟨401, none, .unparsable⟩
      = .error (.authenticationError "Authentication failed. Check your credentials.") := by
  refine ⟨?_, ?_, ?_⟩
  · have h := (c2_status_classification "/spaces" ⟨429, some "30", .unparsable⟩).1 rfl
    rw [h]; rfl
  · have h := (c2_status_classification "/spaces" ⟨429, none, .unparsable⟩).1 rfl
    rw [h]; rfl
  · exact (c2_status_classification "/spaces" ⟨401, none, .unparsable⟩).2.2.2.1 rfl

/-- C4: `validateCredentials` fails with the domain-or-cloud-id message
exactly when both domain and cloud id are absent (falsy), with the email
message exactly when the first check passes and email is absent, with the
API-token message exactly when the first two pass and the token is
absent; it succeeds exactly when domain-or-cloud-id, email and token are
all present; the three failure messages are pairwise distinct, each
naming its missing header. -/
theorem c4_validateCredentials_spec (c : TenantCredentials) :
  (validateCredentials c = .error missingDomainMsg
      ↔ jsTruthyStr c.domain = false ∧ jsTruthyOpt c.cloudId = false)
  ∧ (validateCredentials c = .error missingEmailMsg
      ↔ (jsTruthyStr c.domain = true ∨ jsTruthyOpt c.cloudId = true)
          ∧ jsTruthyStr c.email = false)
  ∧ (validateCredentials c = .error missingApiTokenMsg
      ↔ (jsTruthyStr c.domain = true ∨ jsTruthyOpt c.cloudId = true)
          ∧ jsTruthyStr c.email = true ∧ jsTruthyStr c.apiToken = false)
  ∧ (validateCredentials c = .ok ()
      ↔ (jsTruthyStr c.domain = true ∨ jsTruthyOpt c.cloudId = true)
          ∧ jsTruthyStr c.email = true ∧ jsTruthyStr c.apiToken = true)
  ∧ missingDomainMsg ≠ missingEmailMsg
  ∧ missingDomainMsg ≠ missingApiTokenMsg
  ∧ missingEmailMsg ≠ missingApiTokenMsg := by
  have hde : missingDomainMsg ≠ missingEmailMsg := by decide
  have hdt : missingDomainMsg ≠ missingApiTokenMsg := by decide
  have het : missingEmailMsg ≠ missingApiTokenMsg := by decide
  refine ⟨?_, ?_, ?_, ?_, hde, hdt, het⟩ <;>
    cases hd : jsTruthyStr c.domain <;> cases hc : jsTruthyOpt c.cloudId <;>
    cases he : jsTruthyStr c.email <;> cases ht : jsTruthyStr c.apiToken <;>
    simp [validateCredentials, hd, hc, he, ht, hde, hdt, het, Ne.symm hde, Ne.symm hdt,
      Ne.symm het]

/-- C9: a tenant-identity header that is present but empty parses to the
same credentials as an absent header, and the composition of parsing and
validation fails exactly when the domain and cloud-id headers are both
absent-or-empty, or the email header is absent-or-empty, or the API-token
header is absent-or-empty. -/
theorem c9_parse_validate_composition (h : TenantHeaders) :
  parseTenantCredentials { h with xConfluenceDomain := some "" }
      = parseTenantCredentials { h with xConfluenceDomain := none }
  ∧ parseTenantCredentials { h with xConfluenceEmail := some "" }
      = parseTenantCredentials { h with xConfluenceEmail := none }
  ∧ parseTenantCredentials { h with xConfluenceApiToken := some "" }
      = parseTenantCredentials { h with xConfluenceApiToken := none }
  ∧ parseTenantCredentials { h with xConfluenceCloudId := some "" }
      = parseTenantCredentials { h with xConfluenceCloudId := none }
  ∧ ((∃ e, validateCredentials (parseTenantCredentials h) = .error e)
      ↔ ((absentOrEmpty h.xConfluenceDomain && absentOrEmpty h.xConfluenceCloudId)
          || absentOrEmpty h.xConfluenceEmail
          || absentOrEmpty h.xConfluenceApiToken) = true) := by
  refine ⟨rfl, rfl, rfl, rfl, ?_⟩
  cases hd : absentOrEmpty h.xConfluenceDomain <;>
    cases hc : absentOrEmpty h.xConfluenceCloudId <;>
    cases he : absentOrEmpty h.xConfluenceEmail <;>
    cases ht : absentOrEmpty h.xConfluenceApiToken <;>
    simp [validateCredentials, parseTenantCredentials, jsTruthyStr_jsOrElse_empty,
      jsTruthyOpt_jsOrUndefined, hd, hc, he, ht]

/-- C8 counterexample: a paginated response whose `_links.next` reference
is present but holds the empty string renders without the more-available
flag, so the claim that the flag is shown whenever the next reference is
present fails at this input. -/
theorem c8_links_next_counterexample :
  (some "" : Option String) ≠ none
  ∧ "**More available:** Yes"
      ∉ formatPaginatedLines (fun _ : List Unit => "| t |") "pages" [()] (some "") := by
  refine ⟨by decide, by decide⟩

/-- C8 (amended): in tabular mode the more-available flag line appears in
the rendered lines exactly when `_links.next` is present and non-empty
(truthy), and the no-items placeholder line appears exactly when the
results array is empty — in particular an empty response renders the
placeholder instead of a table; the hypotheses only rule out a table
renderer that itself emits one of the two marker lines. -/
theorem c8_paginated_markdown {α : Type} (renderTable : List α → String)
    (entityType : String) (results : List α) (linksNext : Option String)
    (hrt : ∀ l, renderTable l ≠ "**More available:** Yes")
    (hni : ∀ l, renderTable l ≠ "_No items found._") :
  ("**More available:** Yes" ∈ formatPaginatedLines renderTable entityType results linksNext
      ↔ jsTruthyOpt linksNext = true)
  ∧ (results = [] →
      "_No items found._" ∈ formatPaginatedLines renderTable entityType results linksNext)
  ∧ (results ≠ [] →
      "_No items found._" ∉ formatPaginatedLines renderTable entityType results linksNext) := by
  have h1 : "**More available:** Yes" ≠ "## " ++ capitalize entityType :=
    ne_append_of_not_prefixed "## " (capitalize entityType) "**More available:** Yes" (by decide)
  have h2 : "**More available:** Yes" ≠ "**Showing:** " ++ toString results.length :=
    ne_append_of_not_prefixed "**Showing:** " (toString results.length)
      "**More available:** Yes" (by decide)
  have h3 : "_No items found._" ≠ "## " ++ capitalize entityType :=
    ne_append_of_not_prefixed "## " (capitalize entityType) "_No items found._" (by decide)
  have h4 : "_No items found._" ≠ "**Showing:** " ++ toString results.length :=
    ne_append_of_not_prefixed "**Showing:** " (toString results.length)
      "_No items found._" (by decide)
  have h5 := Ne.symm (hrt results)
  have h6 := Ne.symm (hni results)
  refine ⟨?_, ?_, ?_⟩
  · cases hnx : jsTruthyOpt linksNext <;>
      by_cases hres : results.isEmpty <;>
      simp [formatPaginatedLines, hnx, hres, h1, h2, h5]
  · intro hres
    subst hres
    simp [formatPaginatedLines]
  · intro hres
    have hres' : results.isEmpty = false := by
      cases results with
      | nil => exact absurd rfl hres
      | cons x xs => rfl
    cases hnx : jsTruthyOpt linksNext <;>
      simp [formatPaginatedLines, hnx, hres', h3, h4, h6]

/-- C8 witness: the amended theorem instantiated at a concrete empty
response whose next reference is a non-empty link. -/
theorem c8_paginated_markdown_witness :
  ("**More available:** Yes"
      ∈ formatPaginatedLines (fun _ : List Unit => "| t |") "pages" [] (some "https://next")
    ↔ jsTruthyOpt (some "https://next") = true)
  ∧ "_No items found._"
      ∈ formatPaginatedLines (fun _ : List Unit => "| t |") "pages" [] (some "https://next") := by
  have h := c8_paginated_markdown (fun _ : List Unit => "| t |") "pages" [] (some "https://next")
    (fun l => show "| t |" ≠ "**More available:** Yes" by decide)
    (fun l => show "| t |" ≠ "_No items found._" by decide)
  exact ⟨h.1, h.2.1 rfl⟩

end Confluence
